import Mathlib

/-!
Verification of the multi-platform publish orchestration core of
`backend/main.py` (news publishing system).

The development shallowly embeds the per-item processing of the batch
endpoints (`publish_to_wordpress`, `publish_to_facebook`,
`publish_to_instagram`, `publish_to_threads`, `publish_to_pixnet`,
`ai_rewrite_news`) and the token-refresh routines
(`refresh_instagram_token`, `refresh_threads_token`).

Modelling conventions:
- The article store (a Supabase table) is a `List Article`; a row lookup by
  id mirrors `.eq("id", news_id).execute()` followed by `response.data[0]`.
- Network calls are oracles passed in as functions: for each item index the
  oracle yields either an exception message (`Except.error`, the Python
  `requests` call raising) or the platform's HTTP response.
- `json.loads` applied to the `images` column is an oracle
  `loads : String → Option ImagesJson`; `none` covers both a parse
  exception and a decoded value that is neither a list nor a dict (every
  such value ends with no image selected in the source, because the
  subsequent subscript or `.get` raises and is swallowed by the
  bare `except`).
- Timestamps are integers (seconds); `datetime.now()` is the parameter
  `now` and `total_seconds()` of a difference is integer subtraction.
- Python truthiness of an optional string (`if not title`, `if news_url`)
  is `strTruthy`; the `a or b` fallback on optional strings is `pyOrStr`.
-/

/-- Decoded JSON value of an article's `images` column: either a JSON array
of image-url strings or a JSON object (a dict of string fields). -/
inductive ImagesJson where
  | arr (xs : List String)
  | obj (pairs : List (String × String))
deriving DecidableEq

/-- Stored value of the `images` column: SQL NULL, a JSON-encoded string,
or a native structured value already decoded by the database driver. -/
inductive StoredImages where
  | absent
  | str (s : String)
  | val (v : ImagesJson)
deriving DecidableEq

/-- One row of the news table, with the columns selected by the publish and
rewrite endpoints. `none` in an optional column is SQL NULL. -/
structure Article where
  id : Nat
  url : String
  title_translated : Option String
  content_translated : Option String
  title_modified : Option String
  content_modified : Option String
  images : StoredImages
deriving DecidableEq

/-- Python `a or b` where `a` is an optional string and `b` a string:
`a` is kept unless it is `None` or empty. -/
def pyOrStr (a : Option String) (b : String) : String :=
  match a with
  | some s => if s = "" then b else s
  | none => b

/-- Python `a or b` on two optional strings (used for
`fb_data.get("post_id") or fb_data.get("id")`). -/
def pyOrOptStr (a b : Option String) : Option String :=
  match a with
  | some s => if s = "" then b else some s
  | none => b

/-- Python truthiness of an optional string: `False` for `None` and `""`. -/
def strTruthy : Option String → Bool
  | some s => s ≠ ""
  | none => false

/-- Effective title: `news_item.get("title_modified") or
news_item.get("title_translated", "")`. A NULL translated title is
flattened to `""`, which the emptiness check treats identically. -/
def effectiveTitle (a : Article) : String :=
  pyOrStr a.title_modified (a.title_translated.getD "")

/-- Effective content: `news_item.get("content_modified") or
news_item.get("content_translated", "")`. -/
def effectiveContent (a : Article) : String :=
  pyOrStr a.content_modified (a.content_translated.getD "")

/-- Store lookup `.eq("id", news_id)` followed by taking `response.data[0]`;
`none` when `response.data` is empty. -/
def getById (store : List Article) (id : Nat) : Option Article :=
  (store.filter (fun a => a.id == id)).head?

/-- Python truthiness of a decoded images value
(`if images_list and len(images_list) > 0`). -/
def imagesTruthy : ImagesJson → Bool
  | .arr xs => !xs.isEmpty
  | .obj ps => !ps.isEmpty

/-- First image of a decoded images value: `images_list[0]` for a list,
`images_list.get("url")` for a dict. -/
def pickFirstImage : ImagesJson → Option String
  | .arr xs => xs.head?
  | .obj ps => ps.lookup "url"

/-- Fallback image resolution from the stored `images` column: the outer
`if images:` truthiness gate, then `json.loads` for a string value, then
the decoded truthiness gate, then the first entry. -/
def resolveImagesField (loads : String → Option ImagesJson) :
    StoredImages → Option String
  | .absent => none
  | .str s =>
      if s = "" then none
      else
        match loads s with
        | none => none
        | some v => if imagesTruthy v then pickFirstImage v else none
  | .val v => if imagesTruthy v then pickFirstImage v else none

/-- Image resolution for one item: the caller-selected image when truthy,
else the first entry of the article's `images` column. -/
def resolveImage (loads : String → Option ImagesJson)
    (selected : Option String) (images : StoredImages) : Option String :=
  match selected with
  | some s => if s = "" then resolveImagesField loads images else some s
  | none => resolveImagesField loads images

/-- One element of a publish request: `PublishItem` of the source. -/
structure PublishItem where
  news_id : Nat
  selected_image : Option String
deriving DecidableEq

/-- HTTPException raised by the batch-level checks. -/
structure HttpError where
  status : Nat
  detail : String
deriving DecidableEq

/-- Aggregated batch report returned by every batch endpoint. -/
structure BatchReport (α : Type) where
  total : Nat
  success : Nat
  failed : Nat
  results : List α
deriving DecidableEq

/-- Common tail of every batch endpoint: `success_count` counts successful
results, `fail_count = len(results) - success_count`, `total = len(results)`. -/
def mkReport {α : Type} (results : List α) (isSuccess : α → Bool) :
    BatchReport α :=
  { total := results.length
    success := (results.filter isSuccess).length
    failed := results.length - (results.filter isSuccess).length
    results := results }

/-- Threading of the `news_item` Python local across loop iterations: after
an iteration it holds the last successfully fetched row; the except branch
reads it through `locals()` even when the current iteration failed before
its own fetch. -/
def lastFetchedUpd (store : List Article) (lf : Option Article)
    (it : PublishItem) : Option Article :=
  match getById store it.news_id with
  | some a => some a
  | none => lf

/-- News url reported by an except branch:
`news_item.get("url", "") if "news_item" in locals() else ""`. -/
def localsNewsUrl (lf : Option Article) : String :=
  (lf.map Article.url).getD ""

/-! WordPress publisher -/

/-- Result record of `publish_to_wordpress` (`WordPressPublishResult`). -/
structure WordPressPublishResult where
  news_id : Nat
  news_url : String
  wordpress_post_id : Option Nat
  wordpress_post_url : Option String
  success : Bool
  error : Option String
deriving DecidableEq

/-- Response of the WordPress create-post call: HTTP status and the `id`
and `link` fields of the JSON body. -/
structure WpResponse where
  status : Nat
  post_id : Option Nat
  link : Option String
deriving DecidableEq

/-- Body sent to the WordPress posts endpoint. -/
structure WpPost where
  title : String
  content : String
  status : String
  featured_media : Option Nat
deriving DecidableEq

/-- Article body with the appended attribution paragraph linking the
original source (the WordPress variant). -/
def wpContentWithSource (content news_url : String) : String :=
  if news_url = "" then content
  else
    content ++ "\n\n<p><small>原始來源: <a href=\x27" ++ news_url ++
      "\x27 target=\x27_blank\x27>" ++ news_url ++ "</a></small></p>"

/-- Failure record of the WordPress loop's except branch. -/
def wpFail (news_id : Nat) (news_url msg : String) : WordPressPublishResult :=
  { news_id := news_id, news_url := news_url, wordpress_post_id := none
    wordpress_post_url := none, success := false, error := some msg }

/-- One iteration of the `publish_to_wordpress` loop. `upload` is the
outcome of `upload_image_to_wordpress` (its failures are swallowed and
merely drop the featured image); `net` is the create-post call. Returns
the result record and the new `news_item` local. -/
def wpStep (store : List Article) (loads : String → Option ImagesJson)
    (upload : Nat → Option Nat) (net : Nat → WpPost → Except String WpResponse)
    (idx : Nat) (lf : Option Article) (item : PublishItem) :
    WordPressPublishResult × Option Article :=
  match getById store item.news_id with
  | none =>
      (wpFail item.news_id (localsNewsUrl lf)
        ("找不到 ID 為 " ++ toString item.news_id ++ " 的新聞"), lf)
  | some a =>
      let title := effectiveTitle a
      let content := effectiveContent a
      if title = "" ∨ content = "" then
        (wpFail item.news_id a.url "新聞標題或內容為空", some a)
      else
        let image := resolveImage loads item.selected_image a.images
        let featured := if strTruthy image then upload idx else none
        let post : WpPost :=
          { title := title, content := wpContentWithSource content a.url
            status := "draft", featured_media := featured }
        match net idx post with
        | .error e => (wpFail item.news_id a.url e, some a)
        | .ok resp =>
            if resp.status = 200 ∨ resp.status = 201 then
              ({ news_id := item.news_id, news_url := a.url
                 wordpress_post_id := resp.post_id
                 wordpress_post_url := resp.link
                 success := true, error := none }, some a)
            else
              (wpFail item.news_id a.url
                ("WordPress API 返回錯誤: " ++ toString resp.status), some a)

/-- The `for idx, item_data in enumerate(request.items)` loop of
`publish_to_wordpress`. -/
def wpLoop (store : List Article) (loads : String → Option ImagesJson)
    (upload : Nat → Option Nat) (net : Nat → WpPost → Except String WpResponse) :
    List PublishItem → Nat → Option Article → List WordPressPublishResult
  | [], _, _ => []
  | item :: rest, idx, lf =>
      let r := wpStep store loads upload net idx lf item
      r.1 :: wpLoop store loads upload net rest (idx + 1) r.2

/-- The `/api/wordpress-publish` endpoint: batch-level configuration and
non-empty checks, then the per-item loop and the aggregated report. -/
def publish_to_wordpress (configured : Bool) (store : List Article)
    (loads : String → Option ImagesJson) (upload : Nat → Option Nat)
    (net : Nat → WpPost → Except String WpResponse) (items : List PublishItem) :
    Except HttpError (BatchReport WordPressPublishResult) :=
  if configured = false then .error ⟨503, "WordPress 配置未設定"⟩
  else if items.isEmpty then .error ⟨400, "至少需要一則新聞"⟩
  else .ok (mkReport (wpLoop store loads upload net items 0 none)
    (fun r => r.success))

/-! AI rewrite orchestrator -/

/-- One element of `request.news_items` (an untyped dict in the source);
`url` is `none` when the key is absent or null. -/
structure RewriteNewsItem where
  url : Option String
  title_translated : String
  content_translated : String
deriving DecidableEq

/-- One element of `request.system_prompts`. -/
structure SystemPromptItem where
  name : String
  prompt : String
deriving DecidableEq

/-- Outcome of one OpenAI completion call, as the source distinguishes it:
an exception from the API call, a response whose content fails
`json.loads`, or a parsed JSON object with its two fields (absent fields
default to `""` through `.get(..., "")`). -/
inductive LlmOutcome where
  | apiError (msg : String)
  | notJson (msg : String)
  | fields (title_modified content_modified : String)
deriving DecidableEq

/-- Result record of `ai_rewrite_news` (`AIRewriteResult`). -/
structure AIRewriteResult where
  url : String
  title_modified : String
  content_modified : String
  success : Bool
  error : Option String
deriving DecidableEq

/-- Store update `.update({...}).eq("url", url)`: rewrites every row whose
`url` matches and reports how many rows matched (the length of
`update_response.data`). -/
def updateByUrl (store : List Article) (u t c : String) :
    List Article × Nat :=
  ((store.map fun a =>
      if a.url = u then
        { a with title_modified := some t, content_modified := some c }
      else a),
   (store.filter fun a => a.url == u).length)

/-- Failure record of the rewrite loop. -/
def rwFail (u msg : String) : AIRewriteResult :=
  { url := u, title_modified := "", content_modified := ""
    success := false, error := some msg }

/-- One iteration of the `ai_rewrite_news` loop: the missing-url check, the
completion call, the strict JSON field check, and the update-by-url with
its zero-rows check. Returns the result record and the new store. -/
def rewriteStep (llmOut : LlmOutcome) (store : List Article)
    (item : RewriteNewsItem) : AIRewriteResult × List Article :=
  let u := item.url.getD ""
  if u = "" then (rwFail "" "缺少 URL", store)
  else
    match llmOut with
    | .apiError m => (rwFail u m, store)
    | .notJson m => (rwFail u ("JSON 解析失敗: " ++ m), store)
    | .fields t c =>
        if t = "" ∨ c = "" then (rwFail u "AI 返回的內容不完整", store)
        else
          let upd := updateByUrl store u t c
          if upd.2 = 0 then
            (rwFail u "資料庫更新失敗，可能找不到對應的 URL", upd.1)
          else
            ({ url := u, title_modified := t, content_modified := c
               success := true, error := none }, upd.1)

/-- The per-item loop of `ai_rewrite_news`, threading the store. -/
def rewriteLoop (llm : Nat → LlmOutcome) :
    List RewriteNewsItem → Nat → List Article →
    List AIRewriteResult × List Article
  | [], _, store => ([], store)
  | item :: rest, idx, store =>
      let r := rewriteStep (llm idx) store item
      let tail := rewriteLoop llm rest (idx + 1) r.2
      (r.1 :: tail.1, tail.2)

/-- The `/api/ai-rewrite` endpoint: batch-level checks, then the loop and
the aggregated report, together with the final store. -/
def ai_rewrite_news (openaiConfigured : Bool) (store : List Article)
    (llm : Nat → LlmOutcome) (news_items : List RewriteNewsItem)
    (system_prompts : List SystemPromptItem) :
    Except HttpError (BatchReport AIRewriteResult × List Article) :=
  if openaiConfigured = false then .error ⟨503, "OpenAI API 未設定"⟩
  else if news_items.isEmpty then .error ⟨400, "至少需要一則新聞"⟩
  else if system_prompts.isEmpty then .error ⟨400, "至少需要一個 System Prompt"⟩
  else
    let out := rewriteLoop llm news_items 0 store
    .ok (mkReport out.1 (fun r => r.success), out.2)

/-! Facebook publisher -/

/-- Result record of `publish_to_facebook` (`FacebookPublishResult`). -/
structure FacebookPublishResult where
  news_id : Nat
  news_url : String
  facebook_post_id : Option String
  facebook_post_url : Option String
  success : Bool
  error : Option String
deriving DecidableEq

/-- Response of the Facebook photo-publish call: HTTP status, the
`post_id` and `id` fields of the JSON body, and the raw body text. -/
structure FbResponse where
  status : Nat
  post_id : Option String
  id : Option String
  body : String
deriving DecidableEq

/-- Facebook caption: title, blank line, content, optional attribution. -/
def fbComposeCaption (title content news_url : String) : String :=
  let caption := title ++ "\n\n" ++ content
  if news_url = "" then caption
  else caption ++ "\n\n原始來源: " ++ news_url

/-- Python single-character `str.replace`: every occurrence of `old` is
replaced by the string `new`. -/
def pyReplaceChar (s : String) (old : Char) (new : String) : String :=
  ⟨(s.data.map fun c => if c = old then new.data else [c]).flatten⟩

/-- Post URL derivation of the source:
`"https://www.facebook.com/" + fb_post_id.replace("_", "/posts/")`. -/
def facebookPostUrl (fb_post_id : String) : String :=
  "https://www.facebook.com/" ++ pyReplaceChar fb_post_id '_' "/posts/"

/-- Modelled from the spec: the spec's described derivation of the Facebook
post URL, replacing only the first underscore of the composite id and
leaving the rest of the id unchanged. Stated for comparison with
`facebookPostUrl`, which embeds the source. -/
def specFacebookPostUrlFirstOnly (fb_post_id : String) : String :=
  "https://www.facebook.com/" ++ specReplaceFirstUnderscore fb_post_id.data
where
  /-- Replace only the first underscore with `/posts/`. -/
  specReplaceFirstUnderscore : List Char → String
    | [] => ""
    | c :: rest =>
        if c = '_' then "/posts/" ++ String.mk rest
        else String.mk [c] ++ specReplaceFirstUnderscore rest

/-- Failure record of the Facebook loop's except branch. -/
def fbFail (news_id : Nat) (news_url msg : String) : FacebookPublishResult :=
  { news_id := news_id, news_url := news_url, facebook_post_id := none
    facebook_post_url := none, success := false, error := some msg }

/-- One iteration of the `publish_to_facebook` loop: fetch, the empty
title/content check, the required-image check, the caption composition,
and the photo-publish call. `net idx image caption` is the POST to
`graph.facebook.com/me/photos` for this item. -/
def fbStep (store : List Article) (loads : String → Option ImagesJson)
    (net : Nat → String → String → Except String FbResponse)
    (idx : Nat) (lf : Option Article) (item : PublishItem) :
    FacebookPublishResult × Option Article :=
  match getById store item.news_id with
  | none =>
      (fbFail item.news_id (localsNewsUrl lf)
        ("找不到 ID 為 " ++ toString item.news_id ++ " 的新聞"), lf)
  | some a =>
      let title := effectiveTitle a
      let content := effectiveContent a
      if title = "" ∨ content = "" then
        (fbFail item.news_id a.url "新聞標題或內容為空", some a)
      else
        let image := resolveImage loads item.selected_image a.images
        if strTruthy image = false then
          (fbFail item.news_id a.url "Facebook 發布需要圖片", some a)
        else
          let caption := fbComposeCaption title content a.url
          match net idx (image.getD "") caption with
          | .error e => (fbFail item.news_id a.url e, some a)
          | .ok resp =>
              if resp.status = 200 then
                let fbPostId := pyOrOptStr resp.post_id resp.id
                let fbPostUrl :=
                  match fbPostId with
                  | some p => if p = "" then none else some (facebookPostUrl p)
                  | none => none
                ({ news_id := item.news_id, news_url := a.url
                   facebook_post_id := fbPostId, facebook_post_url := fbPostUrl
                   success := true, error := none }, some a)
              else
                (fbFail item.news_id a.url
                  ("Facebook API 返回錯誤: " ++ toString resp.status ++ " - " ++
                    resp.body), some a)

/-- The per-item loop of `publish_to_facebook`. -/
def fbLoop (store : List Article) (loads : String → Option ImagesJson)
    (net : Nat → String → String → Except String FbResponse) :
    List PublishItem → Nat → Option Article → List FacebookPublishResult
  | [], _, _ => []
  | item :: rest, idx, lf =>
      let r := fbStep store loads net idx lf item
      r.1 :: fbLoop store loads net rest (idx + 1) r.2

/-- The `/api/facebook-publish` endpoint. -/
def publish_to_facebook (configured : Bool) (store : List Article)
    (loads : String → Option ImagesJson)
    (net : Nat → String → String → Except String FbResponse)
    (items : List PublishItem) :
    Except HttpError (BatchReport FacebookPublishResult) :=
  if configured = false then
    .error ⟨503, "Facebook 配置未設定，請在 .env 檔案中設定 FACEBOOK_PAGE_ACCESS_TOKEN"⟩
  else if items.isEmpty then .error ⟨400, "至少需要一則新聞"⟩
  else .ok (mkReport (fbLoop store loads net items 0 none) (fun r => r.success))

/-! Instagram and Threads publishers -/

/-- Response of one Meta graph call (container create or publish). -/
structure GraphResponse where
  status : Nat
  id : Option String
  body : String
deriving DecidableEq

/-- The two network calls of a two-phase container-then-publish item. -/
structure TwoPhaseNet where
  create : Except String GraphResponse
  publish : Except String GraphResponse

/-- Instagram caption composition: title, blank line, content, optional
link line. -/
def igComposeCaption (title content news_url : String) : String :=
  let caption := title ++ "\n\n" ++ content
  if news_url = "" then caption
  else caption ++ "\n\n🔗 " ++ news_url

/-- Instagram truncation: `caption[:2197] + "..."` when
`len(caption) > 2200`. Python `len` and slicing count Unicode code points,
which the embedding represents as `String.length` and a take on the
character list. -/
def igTruncateCaption (caption : String) : String :=
  if caption.length > 2200 then ⟨caption.data.take 2197⟩ ++ "..." else caption

/-- Threads text composition (same shape as Instagram). -/
def threadsComposeText (title content news_url : String) : String :=
  let text := title ++ "\n\n" ++ content
  if news_url = "" then text
  else text ++ "\n\n🔗 " ++ news_url

/-- Threads truncation: `text[:497] + "..."` when `len(text) > 500`. -/
def threadsTruncateText (text : String) : String :=
  if text.length > 500 then ⟨text.data.take 497⟩ ++ "..." else text

/-- Modelled from the spec: the UTF-16 length of a string, the measure the
spec uses for the Instagram caption limit ("2200 UTF-16-unit characters").
A character beyond the Basic Multilingual Plane counts as two code units. -/
def specUtf16Length (s : String) : Nat :=
  (s.data.map fun c => if c.val < 65536 then 1 else 2).sum

/-- Result record of `publish_to_instagram` (`InstagramPublishResult`). -/
structure InstagramPublishResult where
  news_id : Nat
  news_url : String
  instagram_post_id : Option String
  instagram_post_url : Option String
  success : Bool
  error : Option String
deriving DecidableEq

/-- Failure record of the Instagram loop's except branch. -/
def igFail (news_id : Nat) (news_url msg : String) : InstagramPublishResult :=
  { news_id := news_id, news_url := news_url, instagram_post_id := none
    instagram_post_url := none, success := false, error := some msg }

/-- One iteration of the `publish_to_instagram` loop: fetch, empty
title/content check, required-image check, caption with truncation, then
the two-phase container create and publish. The fixed five-second settle
delay between the phases has no observable effect in the embedding. -/
def igStep (store : List Article) (loads : String → Option ImagesJson)
    (net : Nat → TwoPhaseNet) (idx : Nat) (lf : Option Article)
    (item : PublishItem) : InstagramPublishResult × Option Article :=
  match getById store item.news_id with
  | none =>
      (igFail item.news_id (localsNewsUrl lf)
        ("找不到 ID 為 " ++ toString item.news_id ++ " 的新聞"), lf)
  | some a =>
      let title := effectiveTitle a
      let content := effectiveContent a
      if title = "" ∨ content = "" then
        (igFail item.news_id a.url "新聞標題或內容為空", some a)
      else
        let image := resolveImage loads item.selected_image a.images
        if strTruthy image = false then
          (igFail item.news_id a.url "Instagram 發布需要圖片", some a)
        else
          let _caption := igTruncateCaption (igComposeCaption title content a.url)
          match (net idx).create with
          | .error e => (igFail item.news_id a.url e, some a)
          | .ok cr =>
              if cr.status ≠ 200 then
                (igFail item.news_id a.url
                  ("Instagram 媒體容器創建失敗: " ++ toString cr.status ++ " - " ++
                    cr.body), some a)
              else if strTruthy cr.id = false then
                (igFail item.news_id a.url "無法獲取 Creation ID", some a)
              else
                match (net idx).publish with
                | .error e => (igFail item.news_id a.url e, some a)
                | .ok pb =>
                    if pb.status = 200 then
                      ({ news_id := item.news_id, news_url := a.url
                         instagram_post_id := pb.id
                         instagram_post_url :=
                           match pb.id with
                           | some p =>
                               if p = "" then none
                               else some ("https://www.instagram.com/p/" ++ p ++ "/")
                           | none => none
                         success := true, error := none }, some a)
                    else
                      (igFail item.news_id a.url
                        ("Instagram 發布失敗: " ++ toString pb.status ++ " - " ++
                          pb.body), some a)

/-- Result record of `publish_to_threads` (`ThreadsPublishResult`). -/
structure ThreadsPublishResult where
  news_id : Nat
  news_url : String
  threads_post_id : Option String
  threads_post_url : Option String
  success : Bool
  error : Option String
deriving DecidableEq

/-- Failure record of the Threads loop's except branch. -/
def thFail (news_id : Nat) (news_url msg : String) : ThreadsPublishResult :=
  { news_id := news_id, news_url := news_url, threads_post_id := none
    threads_post_url := none, success := false, error := some msg }

/-- One iteration of the `publish_to_threads` loop (two-phase container
create and publish, form-encoded with the token per call). -/
def thStep (store : List Article) (loads : String → Option ImagesJson)
    (net : Nat → TwoPhaseNet) (idx : Nat) (lf : Option Article)
    (item : PublishItem) : ThreadsPublishResult × Option Article :=
  match getById store item.news_id with
  | none =>
      (thFail item.news_id (localsNewsUrl lf)
        ("找不到 ID 為 " ++ toString item.news_id ++ " 的新聞"), lf)
  | some a =>
      let title := effectiveTitle a
      let content := effectiveContent a
      if title = "" ∨ content = "" then
        (thFail item.news_id a.url "新聞標題或內容為空", some a)
      else
        let image := resolveImage loads item.selected_image a.images
        if strTruthy image = false then
          (thFail item.news_id a.url "Threads 發布需要圖片", some a)
        else
          let _text := threadsTruncateText (threadsComposeText title content a.url)
          match (net idx).create with
          | .error e => (thFail item.news_id a.url e, some a)
          | .ok cr =>
              if cr.status ≠ 200 then
                (thFail item.news_id a.url
                  ("Threads Container 創建失敗: " ++ toString cr.status ++ " - " ++
                    cr.body), some a)
              else if strTruthy cr.id = false then
                (thFail item.news_id a.url "無法獲取 Container ID", some a)
              else
                match (net idx).publish with
                | .error e => (thFail item.news_id a.url e, some a)
                | .ok pb =>
                    if pb.status = 200 then
                      ({ news_id := item.news_id, news_url := a.url
                         threads_post_id := pb.id
                         threads_post_url :=
                           match pb.id with
                           | some p =>
                               if p = "" then none
                               else some ("https://www.threads.net/@username/post/" ++ p)
                           | none => none
                         success := true, error := none }, some a)
                    else
                      (thFail item.news_id a.url
                        ("Threads 發布失敗: " ++ toString pb.status ++ " - " ++
                          pb.body), some a)

/-! PIXNET publisher -/

/-- The two authentication strategies appearing in `publish_to_pixnet`. -/
inductive PixnetAuth where
  | oauth2
  | oauth1
deriving DecidableEq

/-- Result record of `publish_to_pixnet` (`PixnetPublishResult`). -/
structure PixnetPublishResult where
  news_id : Nat
  news_url : String
  pixnet_article_id : Option String
  pixnet_article_url : Option String
  success : Bool
  error : Option String
deriving DecidableEq

/-- Response of the PIXNET create call: HTTP status, the embedded `error`
field (absent is `none`), the `message` field, the nested article id and
link, the `user` field, and the raw body text. -/
structure PixnetResponse where
  status : Nat
  error : Option Int
  message : Option String
  article_id : String
  article_link : String
  user : String
  body : String
deriving DecidableEq

/-- One image paragraph of the PIXNET article body. -/
def pixnetImgTag (img_url : String) : String :=
  "<p><img src=\"" ++ img_url ++ "\" alt=\"新聞圖片\" style=\"max-width:100%;\"></p>\n"

/-- Image paragraphs for a decoded images value: iterating a list yields its
elements, iterating a dict yields its keys (Python `for img_url in
images_list`); only non-empty strings produce a tag. -/
def pixnetImagesFromJson (v : ImagesJson) : String :=
  if imagesTruthy v then
    match v with
    | .arr xs => String.join ((xs.filter fun x => x ≠ "").map pixnetImgTag)
    | .obj ps =>
        String.join (((ps.map Prod.fst).filter fun x => x ≠ "").map pixnetImgTag)
  else ""

/-- Image paragraphs from the stored `images` column (parse failures are
caught and leave the body without image paragraphs). -/
def pixnetImagesHtml (loads : String → Option ImagesJson) :
    StoredImages → String
  | .absent => ""
  | .str s =>
      if s = "" then ""
      else
        match loads s with
        | none => ""
        | some v => pixnetImagesFromJson v
  | .val v => pixnetImagesFromJson v

/-- One `<p>` per non-empty stripped line of the content. -/
def pixnetParagraphs (content : String) : String :=
  String.join ((content.splitOn "\n").map fun para =>
    let p := para.trim
    if p = "" then "" else "<p>" ++ p ++ "</p>\n")

/-- Full PIXNET article body: image paragraphs, content paragraphs, then
the attribution paragraph. -/
def pixnetHtmlContent (loads : String → Option ImagesJson)
    (images : StoredImages) (content news_url : String) : String :=
  let html := pixnetImagesHtml loads images ++ pixnetParagraphs content
  if news_url = "" then html
  else
    html ++ "\n<p><small>原始來源: <a href=\"" ++ news_url ++
      "\" target=\"_blank\">" ++ news_url ++ "</a></small></p>"

/-- Numeric PIXNET status derived from the request's status string
(default 1, draft). -/
def pixnetStatusCode (status : String) : Int :=
  if status = "publish" then 2
  else if status = "draft" then 1
  else if status = "pending" then 1
  else if status = "hidden" then 4
  else 1

/-- Failure record of the PIXNET loop's except branch. -/
def pixnetFail (news_id : Nat) (news_url msg : String) : PixnetPublishResult :=
  { news_id := news_id, news_url := news_url, pixnet_article_id := none
    pixnet_article_url := none, success := false, error := some msg }

/-- One iteration of the `publish_to_pixnet` loop. `net` gives the create
POST's outcome for each authentication strategy; the returned list records
which strategies the source actually attempted, in order. The source fixes
`use_oauth2 = True`, so only the bearer-token POST is ever sent. -/
def pixnetStep (store : List Article) (loads : String → Option ImagesJson)
    (net : Nat → PixnetAuth → Except String PixnetResponse)
    (status : String) (idx : Nat) (lf : Option Article) (news_id : Nat) :
    PixnetPublishResult × Option Article × List PixnetAuth :=
  match getById store news_id with
  | none =>
      (pixnetFail news_id (localsNewsUrl lf)
        ("找不到 ID 為 " ++ toString news_id ++ " 的新聞"), lf, [])
  | some a =>
      let title := effectiveTitle a
      let content := effectiveContent a
      if title = "" ∨ content = "" then
        (pixnetFail news_id a.url "新聞標題或內容為空", some a, [])
      else
        let _body := pixnetHtmlContent loads a.images content a.url
        let _statusCode := pixnetStatusCode status
        let use_oauth2 := true
        let resp := if use_oauth2 then net idx .oauth2 else net idx .oauth1
        let attempts := if use_oauth2 then [PixnetAuth.oauth2] else [PixnetAuth.oauth1]
        match resp with
        | .error e => (pixnetFail news_id a.url e, some a, attempts)
        | .ok r =>
            if r.status = 200 then
              if r.error = some 0 ∨ r.error = none then
                let article_link :=
                  if r.article_link = "" ∧ r.article_id ≠ "" then
                    if r.user ≠ "" then
                      "https://" ++ r.user ++ ".pixnet.net/blog/post/" ++ r.article_id
                    else r.article_link
                  else r.article_link
                ({ news_id := news_id, news_url := a.url
                   pixnet_article_id := some r.article_id
                   pixnet_article_url := some article_link
                   success := true, error := none }, some a, attempts)
              else
                (pixnetFail news_id a.url
                  ("PIXNET API 返回錯誤: " ++ (r.message.getD "未知錯誤")),
                 some a, attempts)
            else
              (pixnetFail news_id a.url
                ("PIXNET API 返回錯誤 (" ++ toString r.status ++ "): " ++
                  (r.message.getD r.body)), some a, attempts)

/-! Token refresh (Credential Registry) -/

/-- In-memory token state of a refreshable platform
(`threads_token_data` / `instagram_token_data`). -/
structure TokenData where
  access_token : String
  last_refresh : Option Int
  expires_in : Int
deriving DecidableEq

/-- Response of a token refresh endpoint: HTTP status and the
`access_token` and `expires_in` fields of the JSON body. -/
structure RefreshResponse where
  status : Nat
  access_token : Option String
  expires_in : Option Int
deriving DecidableEq

/-- Outcome of a refresh routine: the returned token, the new in-memory
state, the settings store after the call, and whether the refresh endpoint
was actually called. -/
structure RefreshResult where
  token : String
  tokenData : TokenData
  settings : List (String × String)
  refreshCalled : Bool
deriving DecidableEq

/-- Key-value upsert into the settings store (`save_token_metadata`
upserting one key into the `app_settings` table). -/
def upsertSetting (settings : List (String × String)) (k v : String) :
    List (String × String) :=
  if settings.any (fun p => p.1 == k) then
    settings.map (fun p => if p.1 = k then (k, v) else p)
  else settings ++ [(k, v)]

/-- The body of `refresh_threads_token` past the freshness gate: call the
refresh endpoint; on HTTP 200 with a truthy token, update the in-memory
state, persist `threads_last_refresh`, and return the new token; otherwise
fall back to the old token with no state change. -/
def threadsDoRefresh (now : Int) (td : TokenData)
    (settings : List (String × String)) (net : Except String RefreshResponse) :
    RefreshResult :=
  match net with
  | .error _ => ⟨td.access_token, td, settings, true⟩
  | .ok r =>
      if r.status = 200 then
        match r.access_token with
        | some t =>
            if t = "" then ⟨td.access_token, td, settings, true⟩
            else
              ⟨t,
               { access_token := t, last_refresh := some now
                 expires_in := r.expires_in.getD 5184000 },
               upsertSetting settings "threads_last_refresh" (toString now),
               true⟩
        | none => ⟨td.access_token, td, settings, true⟩
      else ⟨td.access_token, td, settings, true⟩

/-- `refresh_threads_token`: skip the refresh call when the last refresh is
set and less than `expires_in - 86400` seconds old. -/
def refresh_threads_token (now : Int) (td : TokenData)
    (settings : List (String × String)) (net : Except String RefreshResponse) :
    RefreshResult :=
  match td.last_refresh with
  | some lr =>
      if now - lr < td.expires_in - 86400 then
        ⟨td.access_token, td, settings, false⟩
      else threadsDoRefresh now td settings net
  | none => threadsDoRefresh now td settings net

/-- The body of `refresh_instagram_token` past the gates: same shape as the
Threads refresh, but the settings store is left untouched (the source never
persists `last_refresh` for Instagram). -/
def igDoRefresh (now : Int) (td : TokenData)
    (settings : List (String × String)) (net : Except String RefreshResponse) :
    RefreshResult :=
  match net with
  | .error _ => ⟨td.access_token, td, settings, true⟩
  | .ok r =>
      if r.status = 200 then
        match r.access_token with
        | some t =>
            if t = "" then ⟨td.access_token, td, settings, true⟩
            else
              ⟨t,
               { access_token := t, last_refresh := some now
                 expires_in := r.expires_in.getD 5184000 },
               settings, true⟩
        | none => ⟨td.access_token, td, settings, true⟩
      else ⟨td.access_token, td, settings, true⟩

/-- `refresh_instagram_token`: returns the old token without any call when
the app id or app secret is missing; otherwise the same freshness gate as
the Threads refresh. -/
def refresh_instagram_token (appIdConfigured appSecretConfigured : Bool)
    (now : Int) (td : TokenData) (settings : List (String × String))
    (net : Except String RefreshResponse) : RefreshResult :=
  if appIdConfigured = false ∨ appSecretConfigured = false then
    ⟨td.access_token, td, settings, false⟩
  else
    match td.last_refresh with
    | some lr =>
        if now - lr < td.expires_in - 86400 then
          ⟨td.access_token, td, settings, false⟩
        else igDoRefresh now td settings net
    | none => igDoRefresh now td settings net

/-- Empty-or-absent stored `images` column: SQL NULL, the empty string, an
empty array or an empty object. -/
def imagesEmptyOrAbsent : StoredImages → Bool
  | .absent => true
  | .str s => s == ""
  | .val v => !(imagesTruthy v)

/-! Helper lemmas -/

theorem mkReport_counts {α : Type} (results : List α) (p : α → Bool) :
    (mkReport results p).total = results.length ∧
    (mkReport results p).success + (mkReport results p).failed =
      (mkReport results p).total := by
  refine ⟨rfl, ?_⟩
  simp only [mkReport]
  exact Nat.add_sub_cancel' (List.length_filter_le p results)

theorem wpStep_fst_news_id (store : List Article)
    (loads : String → Option ImagesJson) (upload : Nat → Option Nat)
    (net : Nat → WpPost → Except String WpResponse) (idx : Nat)
    (lf : Option Article) (item : PublishItem) :
    (wpStep store loads upload net idx lf item).1.news_id = item.news_id := by
  unfold wpStep
  cases getById store item.news_id with
  | none => rfl
  | some a =>
      dsimp only
      split
      · rfl
      · split
        · rfl
        · split <;> rfl

theorem wpStep_snd (store : List Article)
    (loads : String → Option ImagesJson) (upload : Nat → Option Nat)
    (net : Nat → WpPost → Except String WpResponse) (idx : Nat)
    (lf : Option Article) (item : PublishItem) :
    (wpStep store loads upload net idx lf item).2 = lastFetchedUpd store lf item := by
  unfold wpStep lastFetchedUpd
  cases getById store item.news_id with
  | none => rfl
  | some a =>
      dsimp only
      split
      · rfl
      · split
        · rfl
        · split <;> rfl

theorem wpLoop_length (store : List Article)
    (loads : String → Option ImagesJson) (upload : Nat → Option Nat)
    (net : Nat → WpPost → Except String WpResponse) :
    ∀ (items : List PublishItem) (idx : Nat) (lf : Option Article),
      (wpLoop store loads upload net items idx lf).length = items.length := by
  intro items
  induction items with
  | nil => intro idx lf; rfl
  | cons item rest ih => intro idx lf; simp [wpLoop, ih]

theorem wpLoop_map_news_id (store : List Article)
    (loads : String → Option ImagesJson) (upload : Nat → Option Nat)
    (net : Nat → WpPost → Except String WpResponse) :
    ∀ (items : List PublishItem) (idx : Nat) (lf : Option Article),
      (wpLoop store loads upload net items idx lf).map
          (fun r => r.news_id) =
        items.map (fun it => it.news_id) := by
  intro items
  induction items with
  | nil => intro idx lf; rfl
  | cons item rest ih =>
      intro idx lf
      simp [wpLoop, ih, wpStep_fst_news_id]

theorem wpLoop_getElem (store : List Article)
    (loads : String → Option ImagesJson) (upload : Nat → Option Nat)
    (net : Nat → WpPost → Except String WpResponse) :
    ∀ (items : List PublishItem) (idx : Nat) (lf : Option Article)
      (i : Nat) (it : PublishItem), items[i]? = some it →
      (wpLoop store loads upload net items idx lf)[i]? =
        some (wpStep store loads upload net (idx + i)
          ((items.take i).foldl (lastFetchedUpd store) lf) it).1 := by
  intro items
  induction items with
  | nil => intro idx lf i it h; simp at h
  | cons item rest ih =>
      intro idx lf i it h
      cases i with
      | zero =>
          simp at h
          subst h
          simp [wpLoop]
      | succ n =>
          simp only [List.getElem?_cons_succ] at h
          simp only [wpLoop, List.getElem?_cons_succ]
          rw [ih (idx + 1) (wpStep store loads upload net idx lf item).2 n it h]
          rw [wpStep_snd]
          simp only [List.take_succ_cons, List.foldl_cons]
          have harith : idx + 1 + n = idx + (n + 1) := by omega
          rw [harith]

theorem rewriteStep_url (o : LlmOutcome) (store : List Article)
    (item : RewriteNewsItem) :
    (rewriteStep o store item).1.url = item.url.getD "" := by
  unfold rewriteStep
  dsimp only
  split
  · rename_i h
    rw [h]
    rfl
  · cases o with
    | apiError m => rfl
    | notJson m => rfl
    | fields t c =>
        dsimp only
        split
        · rfl
        · split <;> rfl

theorem rewriteLoop_length (llm : Nat → LlmOutcome) :
    ∀ (items : List RewriteNewsItem) (idx : Nat) (store : List Article),
      (rewriteLoop llm items idx store).1.length = items.length := by
  intro items
  induction items with
  | nil => intro idx store; rfl
  | cons item rest ih => intro idx store; simp [rewriteLoop, ih]

theorem rewriteLoop_map_url (llm : Nat → LlmOutcome) :
    ∀ (items : List RewriteNewsItem) (idx : Nat) (store : List Article),
      (rewriteLoop llm items idx store).1.map (fun r => r.url) =
        items.map (fun it => it.url.getD "") := by
  intro items
  induction items with
  | nil => intro idx store; rfl
  | cons item rest ih =>
      intro idx store
      simp [rewriteLoop, ih, rewriteStep_url]

/-- C1: for every publish or rewrite batch that passes the batch-level
checks (platform configured, non-empty item list), the report satisfies
`total = number of input items`, `success + failed = total`, and there is
exactly one result record per input item in input order (witnessed by the
result list echoing each item's `news_id`, respectively `url`). -/
theorem c1_report_counts_and_order (store : List Article)
    (loads : String → Option ImagesJson) (upload : Nat → Option Nat)
    (net : Nat → WpPost → Except String WpResponse)
    (first : PublishItem) (rest : List PublishItem)
    (llm : Nat → LlmOutcome) (rwFirst : RewriteNewsItem)
    (rwRest : List RewriteNewsItem) (spFirst : SystemPromptItem)
    (spRest : List SystemPromptItem) :
    (∃ rep, publish_to_wordpress true store loads upload net (first :: rest) =
        .ok rep ∧
      rep.total = (first :: rest).length ∧
      rep.success + rep.failed = rep.total ∧
      rep.results.length = (first :: rest).length ∧
      rep.results.map (fun r => r.news_id) =
        (first :: rest).map (fun it => it.news_id)) ∧
    (∃ rep store2, ai_rewrite_news true store llm (rwFirst :: rwRest)
        (spFirst :: spRest) = .ok (rep, store2) ∧
      rep.total = (rwFirst :: rwRest).length ∧
      rep.success + rep.failed = rep.total ∧
      rep.results.length = (rwFirst :: rwRest).length ∧
      rep.results.map (fun r => r.url) =
        (rwFirst :: rwRest).map (fun it => it.url.getD "")) := by
  constructor
  · refine ⟨mkReport (wpLoop store loads upload net (first :: rest) 0 none)
      (fun r => r.success), ?_, ?_, ?_, ?_, ?_⟩
    · simp [publish_to_wordpress]
    · rw [(mkReport_counts _ _).1, wpLoop_length]
    · exact (mkReport_counts _ _).2
    · show (wpLoop store loads upload net (first :: rest) 0 none).length = _
      rw [wpLoop_length]
    · exact wpLoop_map_news_id store loads upload net (first :: rest) 0 none
  · refine ⟨mkReport (rewriteLoop llm (rwFirst :: rwRest) 0 store).1
      (fun r => r.success), (rewriteLoop llm (rwFirst :: rwRest) 0 store).2,
      ?_, ?_, ?_, ?_, ?_⟩
    · simp [ai_rewrite_news]
    · rw [(mkReport_counts _ _).1, rewriteLoop_length]
    · exact (mkReport_counts _ _).2
    · show (rewriteLoop llm (rwFirst :: rwRest) 0 store).1.length = _
      rw [rewriteLoop_length]
    · exact rewriteLoop_map_url llm (rwFirst :: rwRest) 0 store

theorem wpStep_missing (store : List Article)
    (loads : String → Option ImagesJson) (upload : Nat → Option Nat)
    (net : Nat → WpPost → Except String WpResponse) (idx : Nat)
    (lf : Option Article) (item : PublishItem)
    (h : getById store item.news_id = none) :
    (wpStep store loads upload net idx lf item).1 =
      wpFail item.news_id (localsNewsUrl lf)
        ("找不到 ID 為 " ++ toString item.news_id ++ " 的新聞") := by
  unfold wpStep
  rw [h]

/-- C2: an item whose article lookup returns no row never makes the batch
call fail; it yields a failure record whose error message is the
"article not found" message (`找不到 ID 為 ... 的新聞`), and every other
item still gets its own result (the result list keeps the full length). -/
theorem c2_missing_article_isolated (store : List Article)
    (loads : String → Option ImagesJson) (upload : Nat → Option Nat)
    (net : Nat → WpPost → Except String WpResponse)
    (first : PublishItem) (rest : List PublishItem) (i : Nat)
    (it : PublishItem) (hit : (first :: rest)[i]? = some it)
    (hmiss : getById store it.news_id = none) :
    ∃ rep, publish_to_wordpress true store loads upload net (first :: rest) =
        .ok rep ∧
      rep.results.length = (first :: rest).length ∧
      ∃ r, rep.results[i]? = some r ∧ r.success = false ∧
        r.error = some ("找不到 ID 為 " ++ toString it.news_id ++ " 的新聞") := by
  refine ⟨mkReport (wpLoop store loads upload net (first :: rest) 0 none)
    (fun r => r.success), ?_, ?_, ?_⟩
  · simp [publish_to_wordpress]
  · show (wpLoop store loads upload net (first :: rest) 0 none).length = _
    rw [wpLoop_length]
  · refine ⟨(wpStep store loads upload net (0 + i)
      (((first :: rest).take i).foldl (lastFetchedUpd store) none) it).1, ?_, ?_, ?_⟩
    · exact wpLoop_getElem store loads upload net (first :: rest) 0 none i it hit
    · rw [wpStep_missing store loads upload net _ _ it hmiss]
      rfl
    · rw [wpStep_missing store loads upload net _ _ it hmiss]
      rfl

/-- Closed instance of the C2 theorem: a one-item batch over an empty store
yields a not-found failure record. -/
theorem c2_missing_article_isolated_witness :
    ∃ rep, publish_to_wordpress true [] (fun _ => none) (fun _ => none)
        (fun _ _ => .error "down") [⟨1, none⟩] = .ok rep ∧
      rep.results.length = ([⟨1, none⟩] : List PublishItem).length ∧
      ∃ r, rep.results[0]? = some r ∧ r.success = false ∧
        r.error = some ("找不到 ID 為 " ++ toString 1 ++ " 的新聞") :=
  c2_missing_article_isolated [] (fun _ => none) (fun _ => none)
    (fun _ _ => .error "down") ⟨1, none⟩ [] 0 ⟨1, none⟩ rfl rfl

theorem fbStep_snd (store : List Article)
    (loads : String → Option ImagesJson)
    (net : Nat → String → String → Except String FbResponse) (idx : Nat)
    (lf : Option Article) (item : PublishItem) :
    (fbStep store loads net idx lf item).2 = lastFetchedUpd store lf item := by
  unfold fbStep lastFetchedUpd
  cases getById store item.news_id with
  | none => rfl
  | some a =>
      dsimp only
      (repeat' split) <;> rfl

theorem fbStep_missing (store : List Article)
    (loads : String → Option ImagesJson)
    (net : Nat → String → String → Except String FbResponse) (idx : Nat)
    (lf : Option Article) (item : PublishItem)
    (h : getById store item.news_id = none) :
    (fbStep store loads net idx lf item).1 =
      fbFail item.news_id (localsNewsUrl lf)
        ("找不到 ID 為 " ++ toString item.news_id ++ " 的新聞") := by
  unfold fbStep
  rw [h]

theorem fbLoop_length (store : List Article)
    (loads : String → Option ImagesJson)
    (net : Nat → String → String → Except String FbResponse) :
    ∀ (items : List PublishItem) (idx : Nat) (lf : Option Article),
      (fbLoop store loads net items idx lf).length = items.length := by
  intro items
  induction items with
  | nil => intro idx lf; rfl
  | cons item rest ih => intro idx lf; simp [fbLoop, ih]

theorem fbLoop_getElem (store : List Article)
    (loads : String → Option ImagesJson)
    (net : Nat → String → String → Except String FbResponse) :
    ∀ (items : List PublishItem) (idx : Nat) (lf : Option Article)
      (i : Nat) (it : PublishItem), items[i]? = some it →
      (fbLoop store loads net items idx lf)[i]? =
        some (fbStep store loads net (idx + i)
          ((items.take i).foldl (lastFetchedUpd store) lf) it).1 := by
  intro items
  induction items with
  | nil => intro idx lf i it h; simp at h
  | cons item rest ih =>
      intro idx lf i it h
      cases i with
      | zero =>
          simp at h
          subst h
          simp [fbLoop]
      | succ n =>
          simp only [List.getElem?_cons_succ] at h
          simp only [fbLoop, List.getElem?_cons_succ]
          rw [ih (idx + 1) (fbStep store loads net idx lf item).2 n it h]
          rw [fbStep_snd]
          simp only [List.take_succ_cons, List.foldl_cons]
          have harith : idx + 1 + n = idx + (n + 1) := by omega
          rw [harith]

theorem foldl_lastFetchedUpd_all_missing (store : List Article) :
    ∀ (l : List PublishItem), (∀ jt ∈ l, getById store jt.news_id = none) →
      l.foldl (lastFetchedUpd store) none = none := by
  intro l
  induction l with
  | nil => intro _; rfl
  | cons jt rest ih =>
      intro h
      simp only [List.foldl_cons]
      have h1 : lastFetchedUpd store none jt = none := by
        unfold lastFetchedUpd
        rw [h jt (by simp)]
      rw [h1]
      exact ih (fun x hx => h x (by simp [hx]))

/-- C10: a failure recorded for an item that failed before its own row was
fetched (its store lookup returned no row) reports as `news_url` the url of
the most recently fetched article among the earlier items of the same
batch — the `news_item` local left over from a previous iteration — and the
empty string exactly when no earlier item's fetch succeeded; it is never
derived from the failed item itself. Holds for the WordPress and Facebook
batches. -/
theorem c10_stale_news_url (store : List Article)
    (loads : String → Option ImagesJson) (upload : Nat → Option Nat)
    (wnet : Nat → WpPost → Except String WpResponse)
    (fnet : Nat → String → String → Except String FbResponse)
    (first : PublishItem) (rest : List PublishItem) (i : Nat)
    (it : PublishItem) (hit : (first :: rest)[i]? = some it)
    (hmiss : getById store it.news_id = none) :
    (∃ rep, publish_to_wordpress true store loads upload wnet (first :: rest) =
        .ok rep ∧
      ∃ r, rep.results[i]? = some r ∧ r.success = false ∧
        r.news_url = localsNewsUrl
          (((first :: rest).take i).foldl (lastFetchedUpd store) none) ∧
        ((∀ jt ∈ (first :: rest).take i, getById store jt.news_id = none) →
          r.news_url = "")) ∧
    (∃ rep, publish_to_facebook true store loads fnet (first :: rest) =
        .ok rep ∧
      ∃ r, rep.results[i]? = some r ∧ r.success = false ∧
        r.news_url = localsNewsUrl
          (((first :: rest).take i).foldl (lastFetchedUpd store) none) ∧
        ((∀ jt ∈ (first :: rest).take i, getById store jt.news_id = none) →
          r.news_url = "")) := by
  constructor
  · refine ⟨mkReport (wpLoop store loads upload wnet (first :: rest) 0 none)
      (fun r => r.success), ?_, ?_⟩
    · simp [publish_to_wordpress]
    · refine ⟨(wpStep store loads upload wnet (0 + i)
        (((first :: rest).take i).foldl (lastFetchedUpd store) none) it).1,
        wpLoop_getElem store loads upload wnet (first :: rest) 0 none i it hit,
        ?_, ?_, ?_⟩
      · rw [wpStep_missing store loads upload wnet _ _ it hmiss]
        rfl
      · rw [wpStep_missing store loads upload wnet _ _ it hmiss]
        rfl
      · intro hall
        rw [wpStep_missing store loads upload wnet _ _ it hmiss,
          foldl_lastFetchedUpd_all_missing store _ hall]
        rfl
  · refine ⟨mkReport (fbLoop store loads fnet (first :: rest) 0 none)
      (fun r => r.success), ?_, ?_⟩
    · simp [publish_to_facebook]
    · refine ⟨(fbStep store loads fnet (0 + i)
        (((first :: rest).take i).foldl (lastFetchedUpd store) none) it).1,
        fbLoop_getElem store loads fnet (first :: rest) 0 none i it hit,
        ?_, ?_, ?_⟩
      · rw [fbStep_missing store loads fnet _ _ it hmiss]
        rfl
      · rw [fbStep_missing store loads fnet _ _ it hmiss]
        rfl
      · intro hall
        rw [fbStep_missing store loads fnet _ _ it hmiss,
          foldl_lastFetchedUpd_all_missing store _ hall]
        rfl

/-- Closed instance of the C10 theorem: a two-item batch whose second item
is missing from the store; its failure record's url is governed by the
fold over the first item. -/
theorem c10_stale_news_url_witness :
    (∃ rep, publish_to_wordpress true
        [⟨1, "http://first.example/", some "T", some "C", none, none, .absent⟩]
        (fun _ => none) (fun _ => none) (fun _ _ => .error "down")
        [⟨1, none⟩, ⟨2, none⟩] = .ok rep ∧
      ∃ r, rep.results[1]? = some r ∧ r.success = false ∧
        r.news_url = localsNewsUrl
          ((([⟨1, none⟩, ⟨2, none⟩] : List PublishItem).take 1).foldl
            (lastFetchedUpd
              [⟨1, "http://first.example/", some "T", some "C", none, none, .absent⟩])
            none) ∧
        ((∀ jt ∈ ([⟨1, none⟩, ⟨2, none⟩] : List PublishItem).take 1,
            getById
              [⟨1, "http://first.example/", some "T", some "C", none, none, .absent⟩]
              jt.news_id = none) → r.news_url = "")) ∧
    (∃ rep, publish_to_facebook true
        [⟨1, "http://first.example/", some "T", some "C", none, none, .absent⟩]
        (fun _ => none) (fun _ _ _ => .error "down")
        [⟨1, none⟩, ⟨2, none⟩] = .ok rep ∧
      ∃ r, rep.results[1]? = some r ∧ r.success = false ∧
        r.news_url = localsNewsUrl
          ((([⟨1, none⟩, ⟨2, none⟩] : List PublishItem).take 1).foldl
            (lastFetchedUpd
              [⟨1, "http://first.example/", some "T", some "C", none, none, .absent⟩])
            none) ∧
        ((∀ jt ∈ ([⟨1, none⟩, ⟨2, none⟩] : List PublishItem).take 1,
            getById
              [⟨1, "http://first.example/", some "T", some "C", none, none, .absent⟩]
              jt.news_id = none) → r.news_url = "")) :=
  c10_stale_news_url
    [⟨1, "http://first.example/", some "T", some "C", none, none, .absent⟩]
    (fun _ => none) (fun _ => none) (fun _ _ => .error "down")
    (fun _ _ _ => .error "down") ⟨1, none⟩ [⟨2, none⟩] 1 ⟨2, none⟩ rfl rfl

theorem threadsDoRefresh_called (now : Int) (td : TokenData)
    (settings : List (String × String)) (net : Except String RefreshResponse) :
    (threadsDoRefresh now td settings net).refreshCalled = true := by
  unfold threadsDoRefresh
  (repeat' split) <;> rfl

theorem igDoRefresh_called (now : Int) (td : TokenData)
    (settings : List (String × String)) (net : Except String RefreshResponse) :
    (igDoRefresh now td settings net).refreshCalled = true := by
  unfold igDoRefresh
  (repeat' split) <;> rfl

/-- C3 counterexample: with `last_refresh = now - (ttl - 86400 - 1)` the
elapsed time is one second short of the refresh threshold, so neither
refresh routine calls the refresh endpoint — the claim says this input
must trigger a refresh call. Concrete values: `now = 6000000`,
`ttl = 5184000`. -/
theorem c3_counterexample :
    (refresh_threads_token 6000000
        ⟨"tok", some (6000000 - (5184000 - 86400 - 1)), 5184000⟩ []
        (.error "down")).refreshCalled = false ∧
    (refresh_instagram_token true true 6000000
        ⟨"tok", some (6000000 - (5184000 - 86400 - 1)), 5184000⟩ []
        (.error "down")).refreshCalled = false := by
  constructor <;> decide

/-- C3 as amended: for both refreshable platforms (Instagram with app
id/secret configured, Threads), `last_refresh = now - (ttl - 86400 + 1)` —
one second past the freshness window — triggers a call to the refresh
endpoint, while `last_refresh = now - 10` with `ttl = 5184000` does not. -/
theorem c3_token_freshness (now ttl : Int) (tok : String)
    (settings : List (String × String)) (net : Except String RefreshResponse) :
    (refresh_threads_token now ⟨tok, some (now - (ttl - 86400 + 1)), ttl⟩
        settings net).refreshCalled = true ∧
    (refresh_instagram_token true true now
        ⟨tok, some (now - (ttl - 86400 + 1)), ttl⟩ settings net).refreshCalled =
      true ∧
    (refresh_threads_token now ⟨tok, some (now - 10), 5184000⟩ settings
        net).refreshCalled = false ∧
    (refresh_instagram_token true true now ⟨tok, some (now - 10), 5184000⟩
        settings net).refreshCalled = false := by
  refine ⟨?_, ?_, ?_, ?_⟩
  · unfold refresh_threads_token
    dsimp only
    rw [if_neg (by omega)]
    exact threadsDoRefresh_called now _ settings net
  · unfold refresh_instagram_token
    rw [if_neg (by simp)]
    dsimp only
    rw [if_neg (by omega)]
    exact igDoRefresh_called now _ settings net
  · unfold refresh_threads_token
    dsimp only
    rw [if_pos (by omega)]
  · unfold refresh_instagram_token
    rw [if_neg (by simp)]
    dsimp only
    rw [if_pos (by omega)]

theorem lookup_map_set (k v : String) :
    ∀ (l : List (String × String)), l.any (fun p => p.1 == k) = true →
      (l.map (fun p => if p.1 = k then (k, v) else p)).lookup k = some v := by
  intro l
  induction l with
  | nil => intro hl; simp at hl
  | cons p rest ih =>
      intro hl
      simp only [List.any_cons, Bool.or_eq_true, beq_iff_eq] at hl
      by_cases hp : p.1 = k
      · rw [List.map_cons, if_pos hp]
        simp [List.lookup]
      · have hrest : rest.any (fun p => p.1 == k) = true := by
          rcases hl with h | h
          · exact absurd h hp
          · exact h
        have hk : (k == p.1) = false := by
          simp
          exact fun h => hp h.symm
        rw [List.map_cons, if_neg hp]
        simp [List.lookup, hk]
        exact ih hrest

theorem lookup_append_single (k v : String) :
    ∀ (l : List (String × String)), l.any (fun p => p.1 == k) = false →
      (l ++ [(k, v)]).lookup k = some v := by
  intro l
  induction l with
  | nil => simp [List.lookup]
  | cons p rest ih =>
      intro hl
      simp only [List.any_cons, Bool.or_eq_false_iff] at hl
      have hne : p.1 ≠ k := by simpa using hl.1
      have hk : (k == p.1) = false := by
        simp
        exact fun h => hne h.symm
      rw [List.cons_append]
      simp [List.lookup, hk]
      exact ih hl.2

theorem upsertSetting_lookup (k v : String) (settings : List (String × String)) :
    (upsertSetting settings k v).lookup k = some v := by
  unfold upsertSetting
  by_cases h : settings.any (fun p => p.1 == k) = true
  · rw [if_pos h]
    exact lookup_map_set k v settings h
  · rw [if_neg h]
    exact lookup_append_single k v settings (Bool.eq_false_iff.mpr h)

/-- C8 counterexample: a successful Instagram token refresh updates the
in-memory state and returns the new token but leaves the settings store
completely untouched (here: still empty), so `last_refresh` is not
persisted — the claim asserts persistence for both platforms. -/
theorem c8_counterexample :
    (refresh_instagram_token true true 1000 ⟨"old", none, 5184000⟩ []
        (.ok ⟨200, some "new", some 5184000⟩)).token = "new" ∧
    (refresh_instagram_token true true 1000 ⟨"old", none, 5184000⟩ []
        (.ok ⟨200, some "new", some 5184000⟩)).tokenData.last_refresh =
      some 1000 ∧
    (refresh_instagram_token true true 1000 ⟨"old", none, 5184000⟩ []
        (.ok ⟨200, some "new", some 5184000⟩)).settings = [] := by
  refine ⟨?_, ?_, ?_⟩ <;> decide

/-- C8 as amended: on a successful refresh (HTTP 200 with a non-empty
token) both routines update the in-memory token state and return the new
token; only the Threads routine persists `last_refresh` to the settings
store, the Instagram routine leaves the settings store unchanged. The
first two conjuncts show that a never-refreshed state reaches the refresh
body in both routines. -/
theorem c8_refresh_state_update (now : Int) (td : TokenData)
    (settings : List (String × String)) (tok : String) (exp : Option Int)
    (htok : tok ≠ "") :
    refresh_threads_token now ⟨td.access_token, none, td.expires_in⟩ settings
        (.ok ⟨200, some tok, exp⟩) =
      threadsDoRefresh now ⟨td.access_token, none, td.expires_in⟩ settings
        (.ok ⟨200, some tok, exp⟩) ∧
    refresh_instagram_token true true now ⟨td.access_token, none, td.expires_in⟩
        settings (.ok ⟨200, some tok, exp⟩) =
      igDoRefresh now ⟨td.access_token, none, td.expires_in⟩ settings
        (.ok ⟨200, some tok, exp⟩) ∧
    ((threadsDoRefresh now td settings (.ok ⟨200, some tok, exp⟩)).token = tok ∧
     (threadsDoRefresh now td settings
        (.ok ⟨200, some tok, exp⟩)).tokenData.access_token = tok ∧
     (threadsDoRefresh now td settings
        (.ok ⟨200, some tok, exp⟩)).tokenData.last_refresh = some now ∧
     (threadsDoRefresh now td settings
        (.ok ⟨200, some tok, exp⟩)).settings.lookup "threads_last_refresh" =
       some (toString now)) ∧
    ((igDoRefresh now td settings (.ok ⟨200, some tok, exp⟩)).token = tok ∧
     (igDoRefresh now td settings
        (.ok ⟨200, some tok, exp⟩)).tokenData.access_token = tok ∧
     (igDoRefresh now td settings
        (.ok ⟨200, some tok, exp⟩)).tokenData.last_refresh = some now ∧
     (igDoRefresh now td settings (.ok ⟨200, some tok, exp⟩)).settings =
       settings) := by
  refine ⟨rfl, rfl, ?_, ?_⟩
  · unfold threadsDoRefresh
    dsimp only
    rw [if_pos rfl, if_neg htok]
    exact ⟨rfl, rfl, rfl, upsertSetting_lookup _ _ settings⟩
  · unfold igDoRefresh
    dsimp only
    rw [if_pos rfl, if_neg htok]
    exact ⟨rfl, rfl, rfl, rfl⟩

/-- Closed instance of the C8 theorem at a concrete successful refresh. -/
theorem c8_refresh_state_update_witness :
    ("new" : String) ≠ "" ∧
    ((threadsDoRefresh 1000 ⟨"old", none, 5184000⟩ []
        (.ok ⟨200, some "new", none⟩)).token = "new" ∧
     (threadsDoRefresh 1000 ⟨"old", none, 5184000⟩ []
        (.ok ⟨200, some "new", none⟩)).tokenData.access_token = "new" ∧
     (threadsDoRefresh 1000 ⟨"old", none, 5184000⟩ []
        (.ok ⟨200, some "new", none⟩)).tokenData.last_refresh = some 1000 ∧
     (threadsDoRefresh 1000 ⟨"old", none, 5184000⟩ []
        (.ok ⟨200, some "new", none⟩)).settings.lookup "threads_last_refresh" =
       some (toString (1000 : Int))) ∧
    ((igDoRefresh 1000 ⟨"old", none, 5184000⟩ []
        (.ok ⟨200, some "new", none⟩)).token = "new" ∧
     (igDoRefresh 1000 ⟨"old", none, 5184000⟩ []
        (.ok ⟨200, some "new", none⟩)).tokenData.access_token = "new" ∧
     (igDoRefresh 1000 ⟨"old", none, 5184000⟩ []
        (.ok ⟨200, some "new", none⟩)).tokenData.last_refresh = some 1000 ∧
     (igDoRefresh 1000 ⟨"old", none, 5184000⟩ []
        (.ok ⟨200, some "new", none⟩)).settings = []) := by
  have h : ("new" : String) ≠ "" := by decide
  have := c8_refresh_state_update 1000 ⟨"old", none, 5184000⟩ [] "new" none h
  exact ⟨h, this.2.2.1, this.2.2.2⟩


theorem resolveImage_of_empty (loads : String → Option ImagesJson)
    (img : StoredImages) (h : imagesEmptyOrAbsent img = true) :
    resolveImage loads none img = none := by
  cases img with
  | absent => rfl
  | str s =>
      simp only [imagesEmptyOrAbsent, beq_iff_eq] at h
      simp [resolveImage, resolveImagesField, h]
  | val v =>
      simp only [imagesEmptyOrAbsent, Bool.not_eq_true'] at h
      simp [resolveImage, resolveImagesField, h]

/-- C4 counterexample: an article whose effective title is empty, with no
selected image and an absent `images` column, fails with the empty
title-or-content error and not with the image-required error, on all three
image-required platforms — the claim asserts the image-required error also
in this case. -/
theorem c4_counterexample :
    ((fbStep [⟨1, "http://u/", some "", some "C", none, none, .absent⟩]
        (fun _ => none) (fun _ _ _ => .error "down") 0 none ⟨1, none⟩).1.error =
      some "新聞標題或內容為空" ∧
     (fbStep [⟨1, "http://u/", some "", some "C", none, none, .absent⟩]
        (fun _ => none) (fun _ _ _ => .error "down") 0 none ⟨1, none⟩).1.error ≠
      some "Facebook 發布需要圖片") ∧
    ((igStep [⟨1, "http://u/", some "", some "C", none, none, .absent⟩]
        (fun _ => none) (fun _ => ⟨.error "down", .error "down"⟩) 0 none
        ⟨1, none⟩).1.error = some "新聞標題或內容為空" ∧
     (igStep [⟨1, "http://u/", some "", some "C", none, none, .absent⟩]
        (fun _ => none) (fun _ => ⟨.error "down", .error "down"⟩) 0 none
        ⟨1, none⟩).1.error ≠ some "Instagram 發布需要圖片") ∧
    ((thStep [⟨1, "http://u/", some "", some "C", none, none, .absent⟩]
        (fun _ => none) (fun _ => ⟨.error "down", .error "down"⟩) 0 none
        ⟨1, none⟩).1.error = some "新聞標題或內容為空" ∧
     (thStep [⟨1, "http://u/", some "", some "C", none, none, .absent⟩]
        (fun _ => none) (fun _ => ⟨.error "down", .error "down"⟩) 0 none
        ⟨1, none⟩).1.error ≠ some "Threads 發布需要圖片") := by
  refine ⟨⟨?_, ?_⟩, ⟨?_, ?_⟩, ⟨?_, ?_⟩⟩ <;> decide

/-- C4 as amended: on Facebook, Instagram and Threads, an item with no
caller-selected image and an empty or absent `images` column fails with
that platform's image-required error, provided its effective title and
effective content are non-empty; when either is empty the item instead
fails earlier with the empty title-or-content error (the title/content
check precedes the image check). -/
theorem c4_image_required (store : List Article)
    (loads : String → Option ImagesJson)
    (fnet : Nat → String → String → Except String FbResponse)
    (inet tnet : Nat → TwoPhaseNet) (idx : Nat) (lf : Option Article)
    (item : PublishItem) (a : Article)
    (hfetch : getById store item.news_id = some a)
    (ht : effectiveTitle a ≠ "") (hc : effectiveContent a ≠ "")
    (hsel : item.selected_image = none)
    (himg : imagesEmptyOrAbsent a.images = true) :
    (fbStep store loads fnet idx lf item).1 =
      fbFail item.news_id a.url "Facebook 發布需要圖片" ∧
    (igStep store loads inet idx lf item).1 =
      igFail item.news_id a.url "Instagram 發布需要圖片" ∧
    (thStep store loads tnet idx lf item).1 =
      thFail item.news_id a.url "Threads 發布需要圖片" := by
  have himg2 : strTruthy (resolveImage loads item.selected_image a.images) = false := by
    rw [hsel, resolveImage_of_empty loads a.images himg]
    rfl
  refine ⟨?_, ?_, ?_⟩
  · unfold fbStep
    rw [hfetch]
    dsimp only
    rw [if_neg (not_or.mpr ⟨ht, hc⟩), if_pos himg2]
  · unfold igStep
    rw [hfetch]
    dsimp only
    rw [if_neg (not_or.mpr ⟨ht, hc⟩), if_pos himg2]
  · unfold thStep
    rw [hfetch]
    dsimp only
    rw [if_neg (not_or.mpr ⟨ht, hc⟩), if_pos himg2]

/-- Closed instance of the C4 theorem: a valid article with an empty
`images` list and no selected image. -/
theorem c4_image_required_witness :
    (fbStep [⟨1, "http://u/", some "T", some "C", none, none, .val (.arr [])⟩]
        (fun _ => none) (fun _ _ _ => .error "down") 0 none ⟨1, none⟩).1 =
      fbFail 1 "http://u/" "Facebook 發布需要圖片" ∧
    (igStep [⟨1, "http://u/", some "T", some "C", none, none, .val (.arr [])⟩]
        (fun _ => none) (fun _ => ⟨.error "down", .error "down"⟩) 0 none
        ⟨1, none⟩).1 = igFail 1 "http://u/" "Instagram 發布需要圖片" ∧
    (thStep [⟨1, "http://u/", some "T", some "C", none, none, .val (.arr [])⟩]
        (fun _ => none) (fun _ => ⟨.error "down", .error "down"⟩) 0 none
        ⟨1, none⟩).1 = thFail 1 "http://u/" "Threads 發布需要圖片" :=
  c4_image_required
    [⟨1, "http://u/", some "T", some "C", none, none, .val (.arr [])⟩]
    (fun _ => none) (fun _ _ _ => .error "down")
    (fun _ => ⟨.error "down", .error "down"⟩)
    (fun _ => ⟨.error "down", .error "down"⟩) 0 none ⟨1, none⟩
    ⟨1, "http://u/", some "T", some "C", none, none, .val (.arr [])⟩
    rfl (by decide) (by decide) rfl rfl

theorem drop_append_of_length {α : Type} (l l2 : List α) (n : Nat)
    (h : l.length = n) : (l ++ l2).drop n = l2 := by
  subst h
  exact List.drop_left l l2

/-- C5 counterexample: a caption of 1101 astral-plane characters measures
2202 UTF-16 code units — longer than 2200 — yet the Instagram truncation
leaves it unchanged (its Python length, 1101 code points, is under the
2200 threshold), so the result does not have 2200 UTF-16 code units; the
claim demands truncation to exactly 2200 UTF-16 code units. -/
theorem c5_counterexample :
    2200 < specUtf16Length ⟨List.replicate 1101 '🔗'⟩ ∧
    igTruncateCaption ⟨List.replicate 1101 '🔗'⟩ =
      (⟨List.replicate 1101 '🔗'⟩ : String) ∧
    specUtf16Length (igTruncateCaption ⟨List.replicate 1101 '🔗'⟩) ≠ 2200 := by
  have hlen : specUtf16Length ⟨List.replicate 1101 '🔗'⟩ = 2202 := by
    unfold specUtf16Length
    rw [List.map_replicate, List.sum_replicate]
    have hastral : (if ('🔗' : Char).val < 65536 then 1 else 2) = 2 := by decide
    rw [hastral, smul_eq_mul]
  have htr : igTruncateCaption ⟨List.replicate 1101 '🔗'⟩ =
      (⟨List.replicate 1101 '🔗'⟩ : String) := by
    unfold igTruncateCaption
    rw [if_neg]
    rw [String.length_mk, List.length_replicate]
    omega
  refine ⟨by rw [hlen]; omega, htr, by rw [htr, hlen]; omega⟩

/-- C5 as amended: both truncations operate on Python string length, that
is Unicode code points. A Threads text longer than 500 code points is cut
to exactly 500 code points ending in the three-character suffix `...`; an
Instagram caption longer than 2200 code points is cut to exactly 2200 code
points ending in the same suffix. -/
theorem c5_truncation (s t : String) (hs : s.length > 500)
    (ht : t.length > 2200) :
    (threadsTruncateText s).length = 500 ∧
    (threadsTruncateText s).data.drop 497 = ['.', '.', '.'] ∧
    (igTruncateCaption t).length = 2200 ∧
    (igTruncateCaption t).data.drop 2197 = ['.', '.', '.'] := by
  have hs' : s.data.length > 500 := by rwa [String.length] at hs
  have ht' : t.data.length > 2200 := by rwa [String.length] at ht
  have hthr : threadsTruncateText s = ⟨s.data.take 497 ++ "...".data⟩ := by
    unfold threadsTruncateText
    rw [if_pos hs]
    rfl
  have hig : igTruncateCaption t = ⟨t.data.take 2197 ++ "...".data⟩ := by
    unfold igTruncateCaption
    rw [if_pos ht]
    rfl
  have hlt : (s.data.take 497).length = 497 := by
    rw [List.length_take]
    omega
  have hlt2 : (t.data.take 2197).length = 2197 := by
    rw [List.length_take]
    omega
  refine ⟨?_, ?_, ?_, ?_⟩
  · rw [hthr, String.length_mk, List.length_append, hlt]
    rfl
  · rw [hthr]
    show (s.data.take 497 ++ "...".data).drop 497 = _
    rw [drop_append_of_length _ _ _ hlt]
  · rw [hig, String.length_mk, List.length_append, hlt2]
    rfl
  · rw [hig]
    show (t.data.take 2197 ++ "...".data).drop 2197 = _
    rw [drop_append_of_length _ _ _ hlt2]

/-- Closed instance of the C5 theorem at concrete over-long strings. -/
theorem c5_truncation_witness :
    (⟨List.replicate 501 'a'⟩ : String).length > 500 ∧
    (⟨List.replicate 2201 'b'⟩ : String).length > 2200 ∧
    ((threadsTruncateText ⟨List.replicate 501 'a'⟩).length = 500 ∧
     (threadsTruncateText ⟨List.replicate 501 'a'⟩).data.drop 497 =
       ['.', '.', '.'] ∧
     (igTruncateCaption ⟨List.replicate 2201 'b'⟩).length = 2200 ∧
     (igTruncateCaption ⟨List.replicate 2201 'b'⟩).data.drop 2197 =
       ['.', '.', '.']) := by
  have hs : (⟨List.replicate 501 'a'⟩ : String).length > 500 := by
    rw [String.length_mk, List.length_replicate]
    omega
  have ht : (⟨List.replicate 2201 'b'⟩ : String).length > 2200 := by
    rw [String.length_mk, List.length_replicate]
    omega
  exact ⟨hs, ht, c5_truncation ⟨List.replicate 501 'a'⟩
    ⟨List.replicate 2201 'b'⟩ hs ht⟩

theorem pyReplaceChar_no_occurrence (new : String) :
    ∀ (l : List Char), '_' ∉ l →
      (l.map (fun c => if c = '_' then new.data else [c])).flatten = l := by
  intro l
  induction l with
  | nil => intro _; rfl
  | cons c rest ih =>
      intro h
      have hc : c ≠ '_' := fun he => h (he ▸ List.mem_cons_self c rest)
      have hrest : '_' ∉ rest := fun hm => h (List.mem_cons_of_mem c hm)
      simp only [List.map_cons, List.flatten_cons, if_neg hc]
      rw [ih hrest]
      rfl

theorem specReplaceFirst_split (m : List Char) :
    ∀ (l : List Char), '_' ∉ l →
      specFacebookPostUrlFirstOnly.specReplaceFirstUnderscore (l ++ '_' :: m) =
        ⟨l⟩ ++ "/posts/" ++ ⟨m⟩ := by
  intro l
  induction l with
  | nil =>
      intro _
      show "/posts/" ++ String.mk m = ⟨[]⟩ ++ "/posts/" ++ ⟨m⟩
      show String.mk ("/posts/".data ++ m) =
        String.mk (([] : List Char) ++ "/posts/".data ++ m)
      rw [List.nil_append]
  | cons c rest ih =>
      intro h
      have hc : c ≠ '_' := fun he => h (he ▸ List.mem_cons_self c rest)
      have hrest : '_' ∉ rest := fun hm => h (List.mem_cons_of_mem c hm)
      show (if c = '_' then "/posts/" ++ String.mk (rest ++ '_' :: m)
        else String.mk [c] ++
          specFacebookPostUrlFirstOnly.specReplaceFirstUnderscore
            (rest ++ '_' :: m)) = _
      rw [if_neg hc, ih hrest]
      show String.mk ([c] ++ (rest ++ "/posts/".data ++ m)) =
        String.mk ((c :: rest) ++ "/posts/".data ++ m)
      simp

theorem facebookPostUrl_single_underscore (l m : List Char)
    (hl : '_' ∉ l) (hm : '_' ∉ m) :
    facebookPostUrl ⟨l ++ '_' :: m⟩ = specFacebookPostUrlFirstOnly ⟨l ++ '_' :: m⟩ := by
  unfold facebookPostUrl specFacebookPostUrlFirstOnly pyReplaceChar
  rw [specReplaceFirst_split m l hl]
  congr 1
  show String.mk ((l ++ '_' :: m).map
      (fun c => if c = '_' then "/posts/".data else [c])).flatten =
    String.mk (l ++ "/posts/".data ++ m)
  congr 1
  rw [List.map_append, List.flatten_append,
    pyReplaceChar_no_occurrence "/posts/" l hl, List.map_cons,
    List.flatten_cons, if_pos rfl, pyReplaceChar_no_occurrence "/posts/" m hm]
  simp

/-- C6 counterexample: on a successful photo post whose composite id holds
two underscores, the reported URL has every underscore replaced by
`/posts/` (Python `str.replace` replaces all occurrences), which differs
from the claim's first-underscore-only derivation. -/
theorem c6_counterexample :
    (fbStep [⟨1, "http://u/", some "T", some "C", none, none,
        .val (.arr ["http://img/"])⟩] (fun _ => none)
        (fun _ _ _ => .ok ⟨200, some "12_34_56", none, ""⟩) 0 none
        ⟨1, none⟩).1.success = true ∧
    (fbStep [⟨1, "http://u/", some "T", some "C", none, none,
        .val (.arr ["http://img/"])⟩] (fun _ => none)
        (fun _ _ _ => .ok ⟨200, some "12_34_56", none, ""⟩) 0 none
        ⟨1, none⟩).1.facebook_post_url =
      some "https://www.facebook.com/12/posts/34/posts/56" ∧
    (fbStep [⟨1, "http://u/", some "T", some "C", none, none,
        .val (.arr ["http://img/"])⟩] (fun _ => none)
        (fun _ _ _ => .ok ⟨200, some "12_34_56", none, ""⟩) 0 none
        ⟨1, none⟩).1.facebook_post_url ≠
      some (specFacebookPostUrlFirstOnly "12_34_56") ∧
    specFacebookPostUrlFirstOnly "12_34_56" =
      "https://www.facebook.com/12/posts/34_56" := by
  refine ⟨?_, ?_, ?_, ?_⟩ <;> decide

/-- C6 as amended: on a successful photo-post response (HTTP 200 with a
truthy `post_id`-or-`id` field), the reported post URL is
`https://www.facebook.com/` followed by the composite id with every
underscore replaced by `/posts/`; when the id holds exactly one
underscore this coincides with the claim's first-underscore derivation. -/
theorem c6_post_url_replaces_all_underscores (store : List Article)
    (loads : String → Option ImagesJson)
    (fnet : Nat → String → String → Except String FbResponse) (idx : Nat)
    (lf : Option Article) (item : PublishItem) (a : Article)
    (resp : FbResponse) (p : String)
    (hfetch : getById store item.news_id = some a)
    (ht : effectiveTitle a ≠ "") (hc : effectiveContent a ≠ "")
    (himage : strTruthy (resolveImage loads item.selected_image a.images) = true)
    (hnet : ∀ u c, fnet idx u c = .ok resp) (hstatus : resp.status = 200)
    (hid : pyOrOptStr resp.post_id resp.id = some p) (hp : p ≠ "") :
    (fbStep store loads fnet idx lf item).1 =
      ⟨item.news_id, a.url, some p,
        some ("https://www.facebook.com/" ++ pyReplaceChar p '_' "/posts/"),
        true, none⟩ ∧
    (∀ (l m : List Char), '_' ∉ l → '_' ∉ m →
      facebookPostUrl ⟨l ++ '_' :: m⟩ =
        specFacebookPostUrlFirstOnly ⟨l ++ '_' :: m⟩) := by
  constructor
  · unfold fbStep
    rw [hfetch]
    dsimp only
    rw [if_neg (not_or.mpr ⟨ht, hc⟩), himage]
    rw [if_neg (by simp), hnet _ _]
    dsimp only
    rw [if_pos hstatus, hid]
    dsimp only
    rw [if_neg hp]
    rfl
  · exact fun l m hl hm => facebookPostUrl_single_underscore l m hl hm

/-- Closed instance of the C6 theorem at a concrete successful post. -/
theorem c6_post_url_witness :
    (fbStep [⟨1, "http://u/", some "T", some "C", none, none,
        .val (.arr ["http://img/"])⟩] (fun _ => none)
        (fun _ _ _ => .ok ⟨200, some "12_34", none, ""⟩) 0 none ⟨1, none⟩).1 =
      ⟨1, "http://u/", some "12_34",
        some ("https://www.facebook.com/" ++ pyReplaceChar "12_34" '_' "/posts/"),
        true, none⟩ ∧
    (∀ (l m : List Char), '_' ∉ l → '_' ∉ m →
      facebookPostUrl ⟨l ++ '_' :: m⟩ =
        specFacebookPostUrlFirstOnly ⟨l ++ '_' :: m⟩) :=
  c6_post_url_replaces_all_underscores
    [⟨1, "http://u/", some "T", some "C", none, none, .val (.arr ["http://img/"])⟩]
    (fun _ => none) (fun _ _ _ => .ok ⟨200, some "12_34", none, ""⟩) 0 none
    ⟨1, none⟩
    ⟨1, "http://u/", some "T", some "C", none, none, .val (.arr ["http://img/"])⟩
    ⟨200, some "12_34", none, ""⟩ "12_34" rfl (by decide) (by decide)
    (by decide) (fun _ _ => rfl) rfl (by decide) (by decide)

/-- C7 counterexample: a PIXNET item whose OAuth2 bearer-token POST yields
an error response (HTTP 400) — and whose OAuth1 signed request would have
succeeded — ends as a failure with only the OAuth2 strategy attempted; no
OAuth1 retry happens, contradicting the claimed ordered fallback. -/
theorem c7_counterexample :
    (pixnetStep [⟨1, "http://u/", some "T", some "C", none, none, .absent⟩]
        (fun _ => none)
        (fun _ auth =>
          match auth with
          | .oauth2 => .ok ⟨400, none, none, "", "", "", "err"⟩
          | .oauth1 => .ok ⟨200, some 0, none, "77", "http://blog/77", "user", ""⟩)
        "draft" 0 none 1).2.2 = [PixnetAuth.oauth2] ∧
    PixnetAuth.oauth1 ∉
      (pixnetStep [⟨1, "http://u/", some "T", some "C", none, none, .absent⟩]
        (fun _ => none)
        (fun _ auth =>
          match auth with
          | .oauth2 => .ok ⟨400, none, none, "", "", "", "err"⟩
          | .oauth1 => .ok ⟨200, some 0, none, "77", "http://blog/77", "user", ""⟩)
        "draft" 0 none 1).2.2 ∧
    (pixnetStep [⟨1, "http://u/", some "T", some "C", none, none, .absent⟩]
        (fun _ => none)
        (fun _ auth =>
          match auth with
          | .oauth2 => .ok ⟨400, none, none, "", "", "", "err"⟩
          | .oauth1 => .ok ⟨200, some 0, none, "77", "http://blog/77", "user", ""⟩)
        "draft" 0 none 1).1.success = false := by
  refine ⟨?_, ?_, ?_⟩ <;> decide

/-- C7 as amended: for every item that reaches the create POST (row found,
non-empty effective title and content), the POST is attempted with the
OAuth2 bearer-token strategy only — the strategy flag is fixed — and an
error response (transport error or non-200 status) makes the item fail
with no OAuth1 retry. -/
theorem c7_oauth2_only (store : List Article)
    (loads : String → Option ImagesJson)
    (net : Nat → PixnetAuth → Except String PixnetResponse) (status : String)
    (idx : Nat) (lf : Option Article) (news_id : Nat) (a : Article)
    (hfetch : getById store news_id = some a)
    (ht : effectiveTitle a ≠ "") (hc : effectiveContent a ≠ "") :
    (pixnetStep store loads net status idx lf news_id).2.2 =
      [PixnetAuth.oauth2] ∧
    (∀ e, net idx .oauth2 = .error e →
      (pixnetStep store loads net status idx lf news_id).1.success = false) ∧
    (∀ r, net idx .oauth2 = .ok r → r.status ≠ 200 →
      (pixnetStep store loads net status idx lf news_id).1.success = false) := by
  refine ⟨?_, ?_, ?_⟩
  · unfold pixnetStep
    rw [hfetch]
    dsimp only
    rw [if_neg (not_or.mpr ⟨ht, hc⟩)]
    simp only [reduceIte]
    cases net idx .oauth2 with
    | error e => rfl
    | ok r => (repeat' split) <;> rfl
  · intro e he
    unfold pixnetStep
    rw [hfetch]
    dsimp only
    rw [if_neg (not_or.mpr ⟨ht, hc⟩)]
    rw [he]
    rfl
  · intro r hr h200
    unfold pixnetStep
    rw [hfetch]
    dsimp only
    rw [if_neg (not_or.mpr ⟨ht, hc⟩)]
    rw [hr]
    simp [pixnetFail, h200]

/-- Closed instance of the C7 theorem: the item of the counterexample run
attempts exactly the OAuth2 strategy. -/
theorem c7_oauth2_only_witness :
    (pixnetStep [⟨1, "http://u/", some "T", some "C", none, none, .absent⟩]
        (fun _ => none) (fun _ _ => .error "down") "draft" 0 none 1).2.2 =
      [PixnetAuth.oauth2] ∧
    (∀ e, (fun (_ : Nat) (_ : PixnetAuth) =>
        (.error "down" : Except String PixnetResponse)) 0 .oauth2 = .error e →
      (pixnetStep [⟨1, "http://u/", some "T", some "C", none, none, .absent⟩]
        (fun _ => none) (fun _ _ => .error "down") "draft" 0 none 1).1.success =
        false) ∧
    (∀ r, (fun (_ : Nat) (_ : PixnetAuth) =>
        (.error "down" : Except String PixnetResponse)) 0 .oauth2 = .ok r →
      r.status ≠ 200 →
      (pixnetStep [⟨1, "http://u/", some "T", some "C", none, none, .absent⟩]
        (fun _ => none) (fun _ _ => .error "down") "draft" 0 none 1).1.success =
        false) :=
  c7_oauth2_only [⟨1, "http://u/", some "T", some "C", none, none, .absent⟩]
    (fun _ => none) (fun _ _ => .error "down") "draft" 0 none 1
    ⟨1, "http://u/", some "T", some "C", none, none, .absent⟩ rfl
    (by decide) (by decide)

theorem map_update_id (u t c : String) :
    ∀ (store : List Article), (∀ a ∈ store, a.url ≠ u) →
      (store.map fun a =>
        if a.url = u then
          { a with title_modified := some t, content_modified := some c }
        else a) = store := by
  intro store
  induction store with
  | nil => intro _; rfl
  | cons a rest ih =>
      intro h
      rw [List.map_cons, if_neg (h a (List.mem_cons_self a rest)),
        ih (fun x hx => h x (List.mem_cons_of_mem a hx))]

/-- C9: for an item with a non-empty url whose completion response parses
as JSON with non-empty `title_modified` and `content_modified`: when the
store has at least one row with that url, every such row is updated with
both fields, other rows are unchanged, and the result reports success;
when no row matches, the item yields the zero-rows failure and the store
is unchanged; and the loop always processes every item regardless. -/
theorem c9_rewrite_round_trip (store : List Article) (u t c : String)
    (item : RewriteNewsItem) (hurl : item.url = some u) (hu : u ≠ "")
    (ht : t ≠ "") (hc : c ≠ "") :
    ((store.filter fun a => a.url == u) ≠ [] →
      (rewriteStep (.fields t c) store item).1 = ⟨u, t, c, true, none⟩ ∧
      (rewriteStep (.fields t c) store item).2 = (updateByUrl store u t c).1 ∧
      (∀ b ∈ (rewriteStep (.fields t c) store item).2,
        b.url = u → b.title_modified = some t ∧ b.content_modified = some c) ∧
      (∀ (i : Nat) (b : Article), store[i]? = some b → b.url ≠ u →
        (rewriteStep (.fields t c) store item).2[i]? = some b)) ∧
    ((store.filter fun a => a.url == u) = [] →
      (rewriteStep (.fields t c) store item).1 =
        rwFail u "資料庫更新失敗，可能找不到對應的 URL" ∧
      (rewriteStep (.fields t c) store item).2 = store) ∧
    (∀ (llm : Nat → LlmOutcome) (items : List RewriteNewsItem) (idx : Nat)
      (st : List Article), (rewriteLoop llm items idx st).1.length =
        items.length) := by
  refine ⟨?_, ?_, fun llm items idx st => rewriteLoop_length llm items idx st⟩
  · intro hne
    have hr : rewriteStep (.fields t c) store item =
        (⟨u, t, c, true, none⟩, (updateByUrl store u t c).1) := by
      unfold rewriteStep
      rw [hurl]
      simp only [Option.getD_some]
      rw [if_neg hu, if_neg (not_or.mpr ⟨ht, hc⟩)]
      rw [if_neg (show ¬((updateByUrl store u t c).2 = 0) from
        fun h0 => hne (List.length_eq_zero.mp h0))]
    refine ⟨by rw [hr], by rw [hr], ?_, ?_⟩
    · intro b hb hbu
      rw [hr] at hb
      simp only [updateByUrl] at hb
      obtain ⟨a0, ha0, rfl⟩ := List.mem_map.mp hb
      by_cases hau : a0.url = u
      · rw [if_pos hau]
        exact ⟨rfl, rfl⟩
      · rw [if_neg hau] at hbu
        exact absurd hbu hau
    · intro i b hib hbu
      rw [hr]
      show ((store.map fun a =>
        if a.url = u then
          { a with title_modified := some t, content_modified := some c }
        else a))[i]? = some b
      rw [List.getElem?_map, hib]
      simp only [Option.map_some']
      rw [if_neg hbu]
  · intro hnil
    have h0 : (updateByUrl store u t c).2 = 0 := by
      dsimp only [updateByUrl]
      rw [hnil]
      rfl
    have hr : rewriteStep (.fields t c) store item =
        (rwFail u "資料庫更新失敗，可能找不到對應的 URL",
         (updateByUrl store u t c).1) := by
      unfold rewriteStep
      rw [hurl]
      simp only [Option.getD_some]
      rw [if_neg hu, if_neg (not_or.mpr ⟨ht, hc⟩)]
      rw [if_pos h0]
    refine ⟨by rw [hr], ?_⟩
    rw [hr]
    show ((store.map fun a =>
      if a.url = u then
        { a with title_modified := some t, content_modified := some c }
      else a)) = store
    apply map_update_id
    intro a ha
    have := List.filter_eq_nil_iff.mp hnil a ha
    simpa using this

/-- Closed instance of the C9 theorem: a one-row store matching the url. -/
theorem c9_rewrite_round_trip_witness :
    ((([⟨1, "http://u1/", some "T", some "C", none, none, .absent⟩] : List Article).filter
        fun a => a.url == "http://u1/") ≠ [] →
      (rewriteStep (.fields "A" "B")
        ([⟨1, "http://u1/", some "T", some "C", none, none, .absent⟩] : List Article)
        ⟨some "http://u1/", "T", "C"⟩).1 = ⟨"http://u1/", "A", "B", true, none⟩ ∧
      (rewriteStep (.fields "A" "B")
        ([⟨1, "http://u1/", some "T", some "C", none, none, .absent⟩] : List Article)
        ⟨some "http://u1/", "T", "C"⟩).2 =
        (updateByUrl ([⟨1, "http://u1/", some "T", some "C", none, none, .absent⟩] : List Article)
          "http://u1/" "A" "B").1 ∧
      (∀ b ∈ (rewriteStep (.fields "A" "B")
          ([⟨1, "http://u1/", some "T", some "C", none, none, .absent⟩] : List Article)
          ⟨some "http://u1/", "T", "C"⟩).2,
        b.url = "http://u1/" →
          b.title_modified = some "A" ∧ b.content_modified = some "B") ∧
      (∀ (i : Nat) (b : Article),
        ([⟨1, "http://u1/", some "T", some "C", none, none, .absent⟩] : List Article)[i]? =
          some b → b.url ≠ "http://u1/" →
        (rewriteStep (.fields "A" "B")
          ([⟨1, "http://u1/", some "T", some "C", none, none, .absent⟩] : List Article)
          ⟨some "http://u1/", "T", "C"⟩).2[i]? = some b)) ∧
    ((([⟨1, "http://u1/", some "T", some "C", none, none, .absent⟩] : List Article).filter
        fun a => a.url == "http://u1/") = [] →
      (rewriteStep (.fields "A" "B")
        ([⟨1, "http://u1/", some "T", some "C", none, none, .absent⟩] : List Article)
        ⟨some "http://u1/", "T", "C"⟩).1 =
        rwFail "http://u1/" "資料庫更新失敗，可能找不到對應的 URL" ∧
      (rewriteStep (.fields "A" "B")
        ([⟨1, "http://u1/", some "T", some "C", none, none, .absent⟩] : List Article)
        ⟨some "http://u1/", "T", "C"⟩).2 =
        ([⟨1, "http://u1/", some "T", some "C", none, none, .absent⟩] : List Article)) ∧
    (∀ (llm : Nat → LlmOutcome) (items : List RewriteNewsItem) (idx : Nat)
      (st : List Article), (rewriteLoop llm items idx st).1.length =
        items.length) :=
  c9_rewrite_round_trip
    ([⟨1, "http://u1/", some "T", some "C", none, none, .absent⟩] : List Article)
    "http://u1/" "A" "B" ⟨some "http://u1/", "T", "C"⟩ rfl (by decide)
    (by decide) (by decide)
